import Mathlib

/-!
# Verification of the AutoChain `ChatOpenAI` adapter

A shallow embedding of `src/autochain/models/chat_openai.py`.  Python dicts
are modelled as ordered association lists (`Dict`) with Python's update
semantics (later values override, insertion order preserved); Python
exceptions become `Except PyError`; the stateful method `generate` is
embedded with explicit state passing (it returns the post-state of the
configuration object) and an explicit trace of the dispatches it makes to
`generate_with_retry`, so that call-count and frame properties are statable.

Helpers that the adapter imports from `autochain.models.base` and
`autochain.agent.message` (`BaseMessage`, `convert_message_to_dict`,
`convert_dict_to_message`, `Generation`, `LLMResult`, `_default_params`,
`generate_with_retry`) are not part of the analysed sources; they are
modelled from the specification and marked as such in their doc comments.
-/

namespace AutoChain

/-- A Python value, as far as the adapter inspects one: strings, numbers
(floats modelled as rationals), lists, string-keyed mappings, and `None`.
Payloads the adapter only passes through (e.g. the `usage` mapping of a
response) are carried verbatim as a `PyVal`. -/
inductive PyVal where
  | vStr : String → PyVal
  | vNum : Rat → PyVal
  | vInt : Int → PyVal
  | vList : List PyVal → PyVal
  | vDict : List (String × PyVal) → PyVal
  | vNone : PyVal
deriving Repr

/-- A Python `dict` with string keys: an ordered association list with
unique keys, in insertion order. -/
abbrev Dict := List (String × PyVal)

namespace Dict

/-- Python `k in d`. -/
def contains (d : Dict) (k : String) : Bool :=
  d.any (fun p => p.1 == k)

/-- Python `d[k] = v`: overwrite in place when the key exists, else append. -/
def set (d : Dict) (k : String) (v : PyVal) : Dict :=
  if d.contains k then
    d.map (fun p => if p.1 == k then (k, v) else p)
  else
    d ++ [(k, v)]

/-- Python `{**a, **b}`: entries of `b` override entries of `a`. -/
def merge (a b : Dict) : Dict :=
  b.foldl (fun acc p => acc.set p.1 p.2) a

/-- Python `d[k]` as an optional lookup (first, hence unique, match). -/
def get? (d : Dict) (k : String) : Option PyVal :=
  (d.find? (fun p => p.1 == k)).map (fun p => p.2)

end Dict

/-- The Python exceptions the adapter can raise. -/
inductive PyError where
  | keyError : String → PyError
  | valueError : String → PyError
deriving Repr, DecidableEq

/-- Modelled from the spec: a chat message is "a role-tagged unit of
conversational content exchanged with the remote API" — a role and a
content string (`autochain.agent.message.BaseMessage`, not under the
analysed sources). -/
structure BaseMessage where
  role : String
  content : String
deriving Repr, DecidableEq

/-- Modelled from the spec: `convert_message_to_dict`
(`autochain.models.base`, not under the analysed sources) maps a message to
the request-side mapping with its `role` and `content` fields. -/
def convert_message_to_dict (m : BaseMessage) : Dict :=
  [("role", PyVal.vStr m.role), ("content", PyVal.vStr m.content)]

/-- Read a string field of a mapping, defaulting to the empty string. -/
def getStr (d : Dict) (k : String) : String :=
  match d.get? k with
  | some (PyVal.vStr s) => s
  | _ => ""

/-- Modelled from the spec: `convert_dict_to_message`
(`autochain.models.base`, not under the analysed sources) maps a
response-side mapping back to the message with its `role` and `content`
fields. -/
def convert_dict_to_message (d : Dict) : BaseMessage :=
  { role := getStr d "role", content := getStr d "content" }

/-- "One candidate response produced by the API for a given request":
wraps one produced message (`autochain.models.base.Generation`, modelled
from the spec). -/
structure Generation where
  message : BaseMessage
deriving Repr

/-- "Aggregate of all generations plus provider-reported usage metadata for
one request" (`autochain.models.base.LLMResult`, modelled from the spec). -/
structure LLMResult where
  generations : List Generation
  llm_output : Dict
deriving Repr

/-- One choice of a provider response: the mapping `res` iterated over by
`_create_llm_result`, of which the code reads the field `res["message"]`. -/
structure Choice where
  message : Dict
deriving Repr

/-- A well-formed provider response mapping, of which `_create_llm_result`
reads `response["choices"]` and `response["usage"]`.  The usage payload is
carried as an uninterpreted `PyVal`. -/
structure Response where
  choices : List Choice
  usage : PyVal
deriving Repr

/-- The configuration fields of `ChatOpenAI` with the source's defaults.
`client` holds whatever `validate_environment` stored there. -/
structure ChatOpenAI where
  client : PyVal := PyVal.vNone
  model_name : String := "gpt-3.5-turbo"
  temperature : Rat := 0
  model_kwargs : Dict := []
  openai_api_key : Option String := none
  openai_organization : Option String := none
  request_timeout : Option Rat := none
  max_retries : Int := 6
  max_tokens : Option Int := none
deriving Repr

/-- Encode an optional rational configuration field as a Python value. -/
def optNum : Option Rat → PyVal
  | some q => PyVal.vNum q
  | none => PyVal.vNone

/-- Encode an optional integer configuration field as a Python value. -/
def optInt : Option Int → PyVal
  | some i => PyVal.vInt i
  | none => PyVal.vNone

/-- Modelled from the spec: `_default_params` (inherited from
`autochain.models.base.BaseLanguageModel`, not under the analysed sources)
collects the sampling parameters of the configuration — temperature,
request timeout, maximum tokens — together with the entries of
`model_kwargs`, which "holds any model parameters valid for `create` call
not explicitly specified" (so e.g. a `stop` default can arrive through
`model_kwargs`). -/
def _default_params (self : ChatOpenAI) : Dict :=
  Dict.merge
    [("temperature", PyVal.vNum self.temperature),
     ("request_timeout", optNum self.request_timeout),
     ("max_tokens", optInt self.max_tokens)]
    self.model_kwargs

/-- The presence of the `openai` python package, and whether the imported
module carries the `ChatCompletion` attribute. -/
structure OpenAIModule where
  hasChatCompletion : Bool
deriving Repr, DecidableEq

/-- `ChatOpenAI.validate_environment`: reads `os.environ["OPENAI_API_KEY"]`
(a `KeyError` when absent), imports `openai` (an `ImportError`, re-raised
as `ValueError`, when the package is missing), and stores
`openai.ChatCompletion` into `values["client"]`, turning the
`AttributeError` of an outdated package into a `ValueError`.  The
environment is passed explicitly; the function performs no remote call. -/
def validate_environment (env : List (String × String))
    (openaiMod : Option OpenAIModule) (values : Dict) : Except PyError Dict :=
  match env.find? (fun p => p.1 == "OPENAI_API_KEY") with
  | none => Except.error (PyError.keyError "OPENAI_API_KEY")
  | some _ =>
    match openaiMod with
    | none => Except.error (PyError.valueError
        "Could not import openai python package. Please install it with `pip install openai`.")
    | some m =>
      if m.hasChatCompletion then
        Except.ok (values.set "client" (PyVal.vStr "openai.ChatCompletion"))
      else
        Except.error (PyError.valueError
          "`openai` has no `ChatCompletion` attribute, this is likely due to an old version of the openai package. Try upgrading it with `pip install --upgrade openai`.")

/-- `ChatOpenAI._create_message_dicts`: builds the request params as
`{**{"model": self.model_name}, **self._default_params}`, raises a
`ValueError` when a `stop` is supplied while the params already carry one,
otherwise inserts the supplied `stop`, and converts each message with
`convert_message_to_dict`. -/
def _create_message_dicts (self : ChatOpenAI) (messages : List BaseMessage)
    (stop : Option (List String)) : Except PyError (List Dict × Dict) :=
  let params : Dict :=
    Dict.merge [("model", PyVal.vStr self.model_name)] (_default_params self)
  match stop with
  | some s =>
    if params.contains "stop" then
      Except.error (PyError.valueError "`stop` found in both the input and default params.")
    else
      Except.ok (messages.map convert_message_to_dict,
        params.set "stop" (PyVal.vList (s.map PyVal.vStr)))
  | none => Except.ok (messages.map convert_message_to_dict, params)

/-- `ChatOpenAI._create_llm_result`: one `Generation` per entry of
`response["choices"]`, wrapping `convert_dict_to_message(res["message"])`,
and an `llm_output` carrying `response["usage"]` under `token_usage`
together with the configured `model_name`. -/
def _create_llm_result (self : ChatOpenAI) (response : Response) : LLMResult :=
  { generations :=
      response.choices.map (fun res => { message := convert_dict_to_message res.message }),
    llm_output :=
      [("token_usage", response.usage), ("model_name", PyVal.vStr self.model_name)] }

/-- The argument pair of one dispatch to `generate_with_retry`: the message
dicts and the request params. -/
abbrev ApiCall := List Dict × Dict

/-- The observable outcome of one invocation of `generate`: its return
value (or raised exception), the trace of its dispatches to
`generate_with_retry`, and the state of the configuration object after the
call. -/
structure GenOut where
  result : Except PyError LLMResult
  calls : List ApiCall
  post : ChatOpenAI
deriving Repr

/-- `ChatOpenAI.generate`.  `generate_with_retry` is not under the analysed
sources; modelled from the spec ("a single outbound request … delegating
retry behavior to the underlying API client"), it is an arbitrary function
`retryFn` supplying the provider response for the dispatched request.  The
method assigns to no field of `self`, so the embedded post-state is the
input state; each dispatch to `generate_with_retry` is recorded in the
trace. -/
def generate (self : ChatOpenAI) (retryFn : List Dict → Dict → Response)
    (messages : List BaseMessage) (stop : Option (List String)) : GenOut :=
  match _create_message_dicts self messages stop with
  | Except.error e => { result := Except.error e, calls := [], post := self }
  | Except.ok (message_dicts, params) =>
    let response := retryFn message_dicts params
    { result := Except.ok (_create_llm_result self response),
      calls := [(message_dicts, params)],
      post := self }

/-! ## Helper lemmas about `Dict` -/

/-- Appending a fresh binding puts it at the end of the lookup order, so
when no earlier binding matches, the lookup finds it. -/
theorem Dict.get?_append_single (d : Dict) (k : String) (v : PyVal)
    (h : d.contains k = false) : Dict.get? (d ++ [(k, v)]) k = some v := by
  induction d with
  | nil => simp [Dict.get?]
  | cons p t ih =>
    simp only [Dict.contains, List.any_cons, Bool.or_eq_false_iff] at h
    simp only [Dict.get?, List.cons_append, List.find?_cons, h.1]
    exact ih h.2

/-- Setting a key absent from a dict makes its lookup return the new
value. -/
theorem Dict.get?_set_self_of_not_contains (d : Dict) (k : String) (v : PyVal)
    (h : d.contains k = false) : (Dict.set d k v).get? k = some v := by
  unfold Dict.set
  rw [h]
  simp only [Bool.false_eq_true, if_false]
  exact Dict.get?_append_single d k v h

/-- `generate` returns its receiver unchanged as the post-state: the method
body assigns to no field. -/
theorem generate_post_eq (self : ChatOpenAI) (retryFn : List Dict → Dict → Response)
    (messages : List BaseMessage) (stop : Option (List String)) :
    (generate self retryFn messages stop).post = self := by
  unfold generate
  cases _create_message_dicts self messages stop with
  | error e => rfl
  | ok p => obtain ⟨mds, ps⟩ := p; rfl

/-! ## Concrete instances used by counterexamples and witnesses -/

/-- The configuration with every field at its source default. -/
def defaultConfig : ChatOpenAI := {}

/-- A configuration whose `model_kwargs` carry a default `stop` parameter,
as the class docstring invites ("Any parameters that are valid to be passed
to the openai.create call can be passed in"). -/
def stopKwargsConfig : ChatOpenAI :=
  { model_kwargs := [("stop", PyVal.vList [PyVal.vStr "END"])] }

/-- A sample user message. -/
def msgHello : BaseMessage := { role := "user", content := "hello" }

/-- A retry oracle returning a fixed empty response, for concrete runs. -/
def constRetry : List Dict → Dict → Response :=
  fun _ _ => { choices := [], usage := PyVal.vNone }

/-- A second retry oracle, syntactically different from `constRetry` but
returning the same response on every request. -/
def constRetryAgain : List Dict → Dict → Response :=
  fun _mds _params => { choices := [], usage := PyVal.vNone }

/-! ## Theorems for the claims -/

/-- Claim C1: `_create_llm_result` returns exactly one generation per entry
of the response's `choices` list, in the same order, the i-th generation
wrapping the message converted from the i-th choice's `message` field. -/
theorem create_llm_result_one_generation_per_choice
    (self : ChatOpenAI) (response : Response) :
    (_create_llm_result self response).generations.length = response.choices.length ∧
    ∀ i : Nat,
      ((_create_llm_result self response).generations[i]?).map Generation.message
        = (response.choices[i]?).map (fun c => convert_dict_to_message c.message) := by
  refine ⟨by simp [_create_llm_result], fun i => ?_⟩
  simp only [_create_llm_result, List.getElem?_map, Option.map_map]
  cases response.choices[i]? with
  | none => rfl
  | some c => rfl

/-- Claim C2, counterexample: with a configuration whose default params
already carry `stop` (via `model_kwargs`) and a non-`None` stop argument,
`_create_message_dicts` raises a `ValueError` instead of returning a list
of request dicts. -/
theorem create_message_dicts_stop_conflict_raises :
    _create_message_dicts stopKwargsConfig [msgHello] (some ["\n"])
      = Except.error (PyError.valueError "`stop` found in both the input and default params.") := by
  rfl

/-- Claim C2, amended: whenever `_create_message_dicts` returns (does not
raise the stop-conflict `ValueError`), the returned list of request dicts
has the same length as the input message list and its i-th dict is the
role/content conversion of the i-th message, in order. -/
theorem create_message_dicts_preserves_messages
    (self : ChatOpenAI) (messages : List BaseMessage) (stop : Option (List String))
    (mds : List Dict) (params : Dict)
    (h : _create_message_dicts self messages stop = Except.ok (mds, params)) :
    mds.length = messages.length ∧
    ∀ i : Nat, mds[i]? = (messages[i]?).map convert_message_to_dict := by
  unfold _create_message_dicts at h
  cases stop with
  | none =>
    simp only [Except.ok.injEq, Prod.mk.injEq] at h
    obtain ⟨h1, -⟩ := h
    subst h1
    exact ⟨by simp, fun i => by simp [List.getElem?_map]⟩
  | some s =>
    by_cases hc : (Dict.merge [("model", PyVal.vStr self.model_name)]
        (_default_params self)).contains "stop" = true
    · simp only [hc, if_true] at h
      cases h
    · simp only [Bool.not_eq_true] at hc
      simp only [hc, Bool.false_eq_true, if_false, Except.ok.injEq, Prod.mk.injEq] at h
      obtain ⟨h1, -⟩ := h
      subst h1
      exact ⟨by simp, fun i => by simp [List.getElem?_map]⟩

/-- Witness for the amended C2 at the default configuration on a singleton
message list with no stop argument. -/
theorem create_message_dicts_preserves_messages_witness :
    ([msgHello].map convert_message_to_dict).length = [msgHello].length ∧
    ∀ i : Nat, ([msgHello].map convert_message_to_dict)[i]?
      = ([msgHello][i]?).map convert_message_to_dict :=
  create_message_dicts_preserves_messages defaultConfig [msgHello] none
    ([msgHello].map convert_message_to_dict)
    (Dict.merge [("model", PyVal.vStr defaultConfig.model_name)] (_default_params defaultConfig))
    (by rfl)

/-- Claim C3: when `OPENAI_API_KEY` is absent from the environment,
`validate_environment` raises (a `KeyError`) at validation time; the
function contains no remote dispatch, so the failure precedes any call. -/
theorem validate_environment_missing_key
    (env : List (String × String)) (openaiMod : Option OpenAIModule) (values : Dict)
    (h : env.find? (fun p => p.1 == "OPENAI_API_KEY") = none) :
    validate_environment env openaiMod values
      = Except.error (PyError.keyError "OPENAI_API_KEY") := by
  unfold validate_environment
  rw [h]

/-- Witness for C3 on the empty environment. -/
theorem validate_environment_missing_key_witness :
    validate_environment [] (some { hasChatCompletion := true }) []
      = Except.error (PyError.keyError "OPENAI_API_KEY") :=
  validate_environment_missing_key [] (some { hasChatCompletion := true }) [] (by rfl)

/-- Claim C4: when the imported `openai` module lacks the `ChatCompletion`
attribute, `validate_environment` raises a `ValueError` at validation time
(with the credential present, so the capability check is reached); the
function contains no remote dispatch. -/
theorem validate_environment_missing_capability
    (env : List (String × String)) (kv : String × String) (values : Dict)
    (h : env.find? (fun p => p.1 == "OPENAI_API_KEY") = some kv) :
    validate_environment env (some { hasChatCompletion := false }) values
      = Except.error (PyError.valueError
          "`openai` has no `ChatCompletion` attribute, this is likely due to an old version of the openai package. Try upgrading it with `pip install --upgrade openai`.") := by
  unfold validate_environment
  rw [h]
  rfl

/-- Witness for C4 on a one-entry environment. -/
theorem validate_environment_missing_capability_witness :
    validate_environment [("OPENAI_API_KEY", "sk-test")]
        (some { hasChatCompletion := false }) []
      = Except.error (PyError.valueError
          "`openai` has no `ChatCompletion` attribute, this is likely due to an old version of the openai package. Try upgrading it with `pip install --upgrade openai`.") :=
  validate_environment_missing_capability [("OPENAI_API_KEY", "sk-test")]
    ("OPENAI_API_KEY", "sk-test") [] (by rfl)

/-- Claim C5: the `llm_output` of the result built by `_create_llm_result`
carries the provider-reported usage payload verbatim under `token_usage`:
the looked-up value is exactly `response.usage`, unmodified. -/
theorem create_llm_result_usage_verbatim (self : ChatOpenAI) (response : Response) :
    (_create_llm_result self response).llm_output.get? "token_usage"
      = some response.usage := by
  rfl

/-- Claim C6, counterexample: an invocation of `generate` whose stop
argument conflicts with a `stop` already in the default params raises
before dispatching, so `generate_with_retry` is invoked zero times, not
exactly once. -/
theorem generate_stop_conflict_zero_calls :
    (generate stopKwargsConfig constRetry [msgHello] (some ["x"])).calls = [] := by
  rfl

/-- Claim C6, amended: `generate` dispatches to `generate_with_retry` at
most once — never concurrently or repeatedly — and exactly once whenever it
returns a result (does not raise the stop-conflict `ValueError`). -/
theorem generate_dispatches_at_most_once
    (self : ChatOpenAI) (retryFn : List Dict → Dict → Response)
    (messages : List BaseMessage) (stop : Option (List String)) :
    (generate self retryFn messages stop).calls.length ≤ 1 ∧
    (∀ r, (generate self retryFn messages stop).result = Except.ok r →
      (generate self retryFn messages stop).calls.length = 1) := by
  unfold generate
  cases _create_message_dicts self messages stop with
  | error e => exact ⟨by simp, fun r hr => by cases hr⟩
  | ok p => obtain ⟨mds, ps⟩ := p; exact ⟨by simp, fun r hr => by rfl⟩

/-- Witness for the amended C6: a run at the default configuration returns
a result and dispatched exactly once. -/
theorem generate_dispatches_at_most_once_witness :
    (generate defaultConfig constRetry [msgHello] none).calls.length = 1 :=
  (generate_dispatches_at_most_once defaultConfig constRetry [msgHello] none).2
    (_create_llm_result defaultConfig { choices := [], usage := PyVal.vNone }) (by rfl)

/-- Claim C7: `generate` leaves every configuration field of the receiver
unchanged: the post-state agrees with the pre-state on `model_name`,
`temperature`, `model_kwargs`, `openai_api_key`, `openai_organization`,
`request_timeout`, `max_retries`, `max_tokens` and `client`. -/
theorem generate_preserves_config
    (self : ChatOpenAI) (retryFn : List Dict → Dict → Response)
    (messages : List BaseMessage) (stop : Option (List String)) :
    (generate self retryFn messages stop).post.model_name = self.model_name ∧
    (generate self retryFn messages stop).post.temperature = self.temperature ∧
    (generate self retryFn messages stop).post.model_kwargs = self.model_kwargs ∧
    (generate self retryFn messages stop).post.openai_api_key = self.openai_api_key ∧
    (generate self retryFn messages stop).post.openai_organization = self.openai_organization ∧
    (generate self retryFn messages stop).post.request_timeout = self.request_timeout ∧
    (generate self retryFn messages stop).post.max_retries = self.max_retries ∧
    (generate self retryFn messages stop).post.max_tokens = self.max_tokens ∧
    (generate self retryFn messages stop).post.client = self.client := by
  rw [generate_post_eq self retryFn messages stop]
  exact ⟨rfl, rfl, rfl, rfl, rfl, rfl, rfl, rfl, rfl⟩

/-- Claim C8: when a stop list is supplied while the request params built
from the configuration already carry `stop`, `generate` raises the
`ValueError` and makes no API call; when no conflict exists, the request
params carry exactly the supplied stop list under `stop`; and with no stop
argument, `generate` adds no `stop` key of its own. -/
theorem generate_stop_handling
    (self : ChatOpenAI) (retryFn : List Dict → Dict → Response)
    (messages : List BaseMessage) (s : List String) :
    ((Dict.merge [("model", PyVal.vStr self.model_name)] (_default_params self)).contains "stop" = true →
      (generate self retryFn messages (some s)).result
        = Except.error (PyError.valueError "`stop` found in both the input and default params.") ∧
      (generate self retryFn messages (some s)).calls = []) ∧
    ((Dict.merge [("model", PyVal.vStr self.model_name)] (_default_params self)).contains "stop" = false →
      ∀ mds params, _create_message_dicts self messages (some s) = Except.ok (mds, params) →
        params.get? "stop" = some (PyVal.vList (s.map PyVal.vStr))) ∧
    (∀ mds params, _create_message_dicts self messages none = Except.ok (mds, params) →
      params.contains "stop"
        = (Dict.merge [("model", PyVal.vStr self.model_name)] (_default_params self)).contains "stop") := by
  refine ⟨fun hc => ?_, fun hc mds params h => ?_, fun mds params h => ?_⟩
  · unfold generate _create_message_dicts
    simp [hc]
  · unfold _create_message_dicts at h
    simp only [hc, Bool.false_eq_true, if_false, Except.ok.injEq, Prod.mk.injEq] at h
    obtain ⟨-, h2⟩ := h
    subst h2
    exact Dict.get?_set_self_of_not_contains _ _ _ hc
  · unfold _create_message_dicts at h
    simp only [Except.ok.injEq, Prod.mk.injEq] at h
    obtain ⟨-, h2⟩ := h
    subst h2
    rfl

/-- Witness for C8: at the default configuration (no default `stop`), the
request params of a run with stop list `["END"]` carry exactly that
list. -/
theorem generate_stop_handling_witness :
    (Dict.set
        (Dict.merge [("model", PyVal.vStr defaultConfig.model_name)]
          (_default_params defaultConfig))
        "stop" (PyVal.vList [PyVal.vStr "END"])).get? "stop"
      = some (PyVal.vList [PyVal.vStr "END"]) :=
  (generate_stop_handling defaultConfig constRetry [msgHello] ["END"]).2.1 (by rfl)
    ([msgHello].map convert_message_to_dict)
    (Dict.set
      (Dict.merge [("model", PyVal.vStr defaultConfig.model_name)]
        (_default_params defaultConfig))
      "stop" (PyVal.vList [PyVal.vStr "END"]))
    (by rfl)

/-- Claim C9: whenever `generate` returns a result, its `llm_output`
carries the configured `model_name` under the key `model_name`, whatever
the response contained. -/
theorem generate_result_model_name
    (self : ChatOpenAI) (retryFn : List Dict → Dict → Response)
    (messages : List BaseMessage) (stop : Option (List String)) (r : LLMResult)
    (h : (generate self retryFn messages stop).result = Except.ok r) :
    r.llm_output.get? "model_name" = some (PyVal.vStr self.model_name) := by
  unfold generate at h
  cases hc : _create_message_dicts self messages stop with
  | error e => rw [hc] at h; cases h
  | ok p =>
    obtain ⟨mds, ps⟩ := p
    rw [hc] at h
    simp only [Except.ok.injEq] at h
    subst h
    rfl

/-- Witness for C9 at the default configuration. -/
theorem generate_result_model_name_witness :
    (_create_llm_result defaultConfig { choices := [], usage := PyVal.vNone }).llm_output.get?
        "model_name" = some (PyVal.vStr defaultConfig.model_name) :=
  generate_result_model_name defaultConfig constRetry [] none
    (_create_llm_result defaultConfig { choices := [], usage := PyVal.vNone }) (by rfl)

/-- Claim C10: `generate` is deterministic in its inputs: two runs with the
same configuration fields, the same messages, the same stop argument, and
client calls that return the same response for the dispatched request
produce equal outcomes. -/
theorem generate_deterministic
    (self1 self2 : ChatOpenAI) (f1 f2 : List Dict → Dict → Response)
    (messages1 messages2 : List BaseMessage) (stop1 stop2 : Option (List String))
    (hclient : self1.client = self2.client)
    (hmodel : self1.model_name = self2.model_name)
    (htemp : self1.temperature = self2.temperature)
    (hkwargs : self1.model_kwargs = self2.model_kwargs)
    (hkey : self1.openai_api_key = self2.openai_api_key)
    (horg : self1.openai_organization = self2.openai_organization)
    (htimeout : self1.request_timeout = self2.request_timeout)
    (hretries : self1.max_retries = self2.max_retries)
    (htokens : self1.max_tokens = self2.max_tokens)
    (hmsgs : messages1 = messages2) (hstop : stop1 = stop2)
    (hresp : ∀ mds params,
      _create_message_dicts self1 messages1 stop1 = Except.ok (mds, params) →
      f1 mds params = f2 mds params) :
    generate self1 f1 messages1 stop1 = generate self2 f2 messages2 stop2 := by
  have hself : self1 = self2 := by
    cases self1; cases self2; simp_all
  subst hself hmsgs hstop
  unfold generate
  cases hc : _create_message_dicts self1 messages1 stop1 with
  | error e => rfl
  | ok p =>
    obtain ⟨mds, ps⟩ := p
    simp only [hresp mds ps hc]

/-- Witness for C10: two runs through syntactically different oracles that
agree on every request coincide. -/
theorem generate_deterministic_witness :
    generate defaultConfig constRetry [msgHello] none
      = generate defaultConfig constRetryAgain [msgHello] none :=
  generate_deterministic defaultConfig defaultConfig constRetry constRetryAgain
    [msgHello] [msgHello] none none rfl rfl rfl rfl rfl rfl rfl rfl rfl rfl rfl
    (fun _mds _params _h => rfl)

end AutoChain
